import Mathlib

/-!
# Verification of the Hydro-Ecologist client-side control & diagnostic layer

Shallow embedding of the change-attribution engine, run-snapshot store,
scalar-field colormap, grid renderer and controller state machine of the
Hydro-Ecologist frontend (`src/components/Dashboard.tsx`,
`src/hooks/useSimulationData.ts`, `src/components/SpatialVisualization.tsx`).

Modelling conventions: JavaScript numbers are embedded as exact rationals
(`ℚ`); `Math.floor` is `Int.floor`; wall-clock timestamps (`new Date()`)
are explicit `ℕ` parameters; the CSS string `rgb(r, g, b)` produced by
`getColor` is embedded as its three integer channels (an `RGB` record);
in-flight gateway requests are counted by explicit `ℕ` fields so that
concurrency claims about "requests in flight" are statable.
-/

namespace HydroEco

/-- Type `ChemistrySnapshot` from `Dashboard.tsx`: 8 numeric fields. -/
structure Chem where
  nutrient : ℚ
  phytoplankton : ℚ
  zooplankton : ℚ
  detritus : ℚ
  dissolved_oxygen : ℚ
  ph : ℚ
  bod : ℚ
  temperature : ℚ
deriving DecidableEq, Repr

/-- The `deltas` object built at the top of `buildExplanation`. -/
structure Deltas where
  dissolved_oxygen : ℚ
  bod : ℚ
  temperature : ℚ
  phytoplankton : ℚ
  zooplankton : ℚ
  detritus : ℚ
  nutrient : ℚ
  ph : ℚ
deriving DecidableEq, Repr

/-- The record returned by `buildExplanation`. -/
structure Explanation where
  title : String
  subtitle : String
  bullets : List String
  deltas : Deltas
deriving DecidableEq, Repr

/-- JavaScript `x.toFixed(2)`: sign of `x`, then the magnitude rounded to
the nearest hundredth with ties away from zero picking the larger
numerator, printed with exactly two decimals. -/
def toFixed2 (q : ℚ) : String :=
  let sgn := if q < 0 then "-" else ""
  let n : ℕ := (⌊|q| * 100 + 1/2⌋).toNat
  sgn ++ toString (n / 100) ++ "." ++ toString (n % 100 / 10) ++ toString (n % 10)

/-- Function `formatDelta` from `Dashboard.tsx`: a leading `+` for positive values,
then `value.toFixed(2)`. -/
def formatDelta (value : ℚ) : String :=
  (if value > 0 then "+" else "") ++ toFixed2 value

/-- The per-field differences `next[f] - prev[f]` computed by
`buildExplanation`, in the insertion order of the `deltas` object literal. -/
def deltasOf (prev next : Chem) : Deltas :=
  { dissolved_oxygen := next.dissolved_oxygen - prev.dissolved_oxygen
    bod := next.bod - prev.bod
    temperature := next.temperature - prev.temperature
    phytoplankton := next.phytoplankton - prev.phytoplankton
    zooplankton := next.zooplankton - prev.zooplankton
    detritus := next.detritus - prev.detritus
    nutrient := next.nutrient - prev.nutrient
    ph := next.ph - prev.ph }

/-- Entries `Object.entries(deltas)`: key/value pairs in object insertion order. -/
def deltaEntries (d : Deltas) : List (String × ℚ) :=
  [("dissolved_oxygen", d.dissolved_oxygen), ("bod", d.bod),
   ("temperature", d.temperature), ("phytoplankton", d.phytoplankton),
   ("zooplankton", d.zooplankton), ("detritus", d.detritus),
   ("nutrient", d.nutrient), ("ph", d.ph)]

/-- The ordering used by `.sort((a, b) => b.abs - a.abs)`: entry `a` may be
placed before entry `b` exactly when `|b| ≤ |a|`.  JavaScript `Array.sort`
is a stable sort, which `List.insertionSort` with this non-strict relation
reproduces. -/
def jsBefore (a b : String × ℚ) : Prop := |b.2| ≤ |a.2|

instance : DecidableRel jsBefore := fun a b => inferInstanceAs (Decidable (|b.2| ≤ |a.2|))

/-- The `.sort((a, b) => b.abs - a.abs)` step of `buildExplanation`:
stable sort descending by absolute delta. -/
def sortByAbsDesc (l : List (String × ℚ)) : List (String × ℚ) :=
  List.insertionSort jsBefore l

/-- JavaScript `.replace('_', ' ')` with a string pattern replaces only
the first occurrence: turn the first underscore into a space. -/
def replaceUnderscoreOnce : List Char → List Char
  | [] => []
  | c :: cs => if c = '_' then ' ' :: cs else c :: replaceUnderscoreOnce cs

/-- Applying `k.replace('_', ' ')` on a field name. -/
def jsReplaceUnderscore (s : String) : String :=
  ⟨replaceUnderscoreOnce s.data⟩

/-- Formatting of one top-changes entry:
`` `${c.k.replace('_', ' ')} ${formatDelta(c.v)}` ``. -/
def fmtEntry (c : String × ℚ) : String :=
  jsReplaceUnderscore c.1 ++ " " ++ formatDelta c.2

/-- The first, always-present bullet of `buildExplanation`. -/
def topChangesLine (d : Deltas) : String :=
  "Top changes: " ++
    String.intercalate ", " (((sortByAbsDesc (deltaEntries d)).take 3).map fmtEntry) ++ "."

def bodRiseNote : String :=
  "DO decreased largely because BOD increased (higher oxygen demand)."
def warmingNote : String :=
  "Warmer water lowers DO saturation, pushing DO downward."
def biomassNote : String :=
  "More biomass/detritus increases respiration terms that can consume DO."
def bodDropNote : String :=
  "DO increased partly because BOD dropped (less oxygen demand)."
def photosynthesisNote : String :=
  "Higher phytoplankton can increase photosynthetic oxygen production."
def coolingNote : String :=
  "Cooler water raises DO saturation, helping DO recover."
def uptakeNote : String :=
  "Nutrients decreased while phytoplankton increased: uptake/growth is likely dominating."
def remineralizationNote : String :=
  "Nutrients increased while detritus decreased: remineralization can return nutrients."

/-- The DO heuristic bullets of `buildExplanation` (the
`if (deltas.dissolved_oxygen < -0.01) { … } else if (… > 0.01) { … }`
block), in push order. -/
def doBullets (d : Deltas) : List String :=
  if d.dissolved_oxygen < -0.01 then
    (if d.bod > 0.01 then [bodRiseNote] else []) ++
    (if d.temperature > 0.05 then [warmingNote] else []) ++
    (if d.detritus > 0.01 ∨ d.zooplankton > 0.01 ∨ d.phytoplankton > 0.01 then
      [biomassNote] else [])
  else if d.dissolved_oxygen > 0.01 then
    (if d.bod < -0.01 then [bodDropNote] else []) ++
    (if d.phytoplankton > 0.01 then [photosynthesisNote] else []) ++
    (if d.temperature < -0.05 then [coolingNote] else [])
  else []

/-- The nutrient/phyto heuristic bullets of `buildExplanation`. -/
def nutrientBullets (d : Deltas) : List String :=
  (if d.nutrient < -0.01 ∧ d.phytoplankton > 0.01 then [uptakeNote] else []) ++
  (if d.nutrient > 0.01 ∧ d.detritus < -0.01 then [remineralizationNote] else [])

/-- All bullets in generation order, before deduplication and capping. -/
def bulletsRaw (d : Deltas) : List String :=
  topChangesLine d :: (doBullets d ++ nutrientBullets d)

/-- Dedup `Array.from(new Set(bullets))`: keep the first occurrence of each
string, preserving order. -/
def dedupKeepFirst (seen : List String) : List String → List String
  | [] => []
  | a :: l =>
      if a ∈ seen then dedupKeepFirst seen l
      else a :: dedupKeepFirst (a :: seen) l

/-- Function `buildExplanation` from `Dashboard.tsx`. -/
def buildExplanation (prev next : Chem) (lastActionLabel : String) : Explanation :=
  let deltas := deltasOf prev next
  { title := "Why did this change?"
    subtitle := lastActionLabel
    bullets := (dedupKeepFirst [] (bulletsRaw deltas)).take 6
    deltas := deltas }

/-! ## Run snapshot store (`Dashboard.tsx`) -/

/-- The untyped chemistry value flowing through `chemistryRef.current`:
each of the 8 keys is either a number (`some`) or missing/non-numeric
(`none`). -/
structure RawChem where
  nutrient : Option ℚ
  phytoplankton : Option ℚ
  zooplankton : Option ℚ
  detritus : Option ℚ
  dissolved_oxygen : Option ℚ
  ph : Option ℚ
  bod : Option ℚ
  temperature : Option ℚ
deriving DecidableEq, Repr

/-- Function `toChemistrySnapshot` from `Dashboard.tsx`: `null` input or any key
that is not a number yields `null`; otherwise the 8 fields are copied. -/
def toChemistrySnapshot (chemistry : Option RawChem) : Option Chem :=
  match chemistry with
  | none => none
  | some c =>
      match c.nutrient, c.phytoplankton, c.zooplankton, c.detritus,
            c.dissolved_oxygen, c.ph, c.bod, c.temperature with
      | some nu, some phy, some zoo, some det, some dox, some ph, some bod, some tem =>
          some { nutrient := nu, phytoplankton := phy, zooplankton := zoo,
                 detritus := det, dissolved_oxygen := dox, ph := ph,
                 bod := bod, temperature := tem }
      | _, _, _, _, _, _, _, _ => none

/-- The two run-comparison slots. -/
inductive Slot where
  | A
  | B
deriving DecidableEq, Repr

/-- Type `RunSnapshot` from `Dashboard.tsx` (the `Date` timestamp is embedded
as a `ℕ` supplied by the caller). -/
structure RunSnapshot where
  id : Slot
  timestamp : ℕ
  targetId : Option String
  targetName : Option String
  health : String
  chemistry : Chem
deriving DecidableEq, Repr

/-- The fragment of `Dashboard` component state that the run-snapshot
store reads and writes. -/
structure DashState where
  chemistryRef : Option RawChem
  activeTargetId : Option String
  activeTargetName : Option String
  health : String
  runA : Option RunSnapshot
  runB : Option RunSnapshot
deriving DecidableEq, Repr

/-- Function `captureRunSnapshot` from `Dashboard.tsx`: read the current chemistry
through `toChemistrySnapshot`; bail out if invalid; otherwise store a new
`RunSnapshot` in the requested slot (`now` stands for `new Date()`). -/
def captureRunSnapshot (id : Slot) (now : ℕ) (s : DashState) : DashState :=
  match toChemistrySnapshot s.chemistryRef with
  | none => s
  | some snap =>
      let run : RunSnapshot :=
        { id := id, timestamp := now, targetId := s.activeTargetId,
          targetName := s.activeTargetName, health := s.health, chemistry := snap }
      match id with
      | Slot.A => { s with runA := some run }
      | Slot.B => { s with runB := some run }

/-! ## Scalar field colormap (`SpatialVisualization.tsx`) -/

/-- The color produced by `getColor`, embedded as its three integer
channels (the source renders it as the CSS string `rgb(r, g, b)`; there is
no alpha channel). -/
structure RGB where
  r : ℤ
  g : ℤ
  b : ℤ
deriving DecidableEq, Repr

/-- Normalization `const normalized = max > min ? (value - min) / (max - min) : 0.5`. -/
def normalizedOf (value mn mx : ℚ) : ℚ :=
  if mx > mn then (value - mn) / (mx - mn) else 0.5

/-- Oxygen palette, lower branch (`normalized < 0.5`): red to yellow. -/
def oxygenLow (normalized : ℚ) : RGB :=
  let t := normalized * 2
  { r := 220, g := ⌊30 + t * 170⌋, b := ⌊30 + t * 30⌋ }

/-- Oxygen palette, upper branch: yellow to cyan. -/
def oxygenHigh (normalized : ℚ) : RGB :=
  let t := (normalized - 0.5) * 2
  { r := ⌊220 - t * 214⌋, g := ⌊200 - t * 18⌋, b := ⌊60 + t * 148⌋ }

/-- Temperature palette, first segment (`normalized < 0.33`). -/
def tempSeg1 (normalized : ℚ) : RGB :=
  let t := normalized / 0.33
  { r := ⌊50 + t * 50⌋, g := ⌊100 + t * 120⌋, b := ⌊200 - t * 50⌋ }

/-- Temperature palette, middle segment (`0.33 ≤ normalized < 0.67`). -/
def tempSeg2 (normalized : ℚ) : RGB :=
  let t := (normalized - 0.33) / 0.34
  { r := ⌊100 + t * 120⌋, g := ⌊220 - t * 40⌋, b := ⌊150 - t * 100⌋ }

/-- Temperature palette, last segment (`normalized ≥ 0.67`). -/
def tempSeg3 (normalized : ℚ) : RGB :=
  let t := (normalized - 0.67) / 0.33
  { r := ⌊220 + t * 30⌋, g := ⌊180 - t * 130⌋, b := ⌊50 - t * 30⌋ }

/-- The `switch (colormap)` body of `getColor`, as a function of the
already-normalized value. -/
def colorRamp (colormap : String) (normalized : ℚ) : RGB :=
  if colormap = "oxygen" then
    if normalized < 0.5 then oxygenLow normalized else oxygenHigh normalized
  else if colormap = "nutrient" then
    { r := ⌊10 + normalized * 40⌋, g := ⌊50 + normalized * 185⌋,
      b := ⌊130 - normalized * 80⌋ }
  else if colormap = "phyto" then
    { r := ⌊20 + normalized * 120⌋, g := ⌊80 + normalized * 175⌋,
      b := ⌊30 + normalized * 70⌋ }
  else if colormap = "pollutant" then
    { r := ⌊30 + normalized * 150⌋, g := ⌊100 - normalized * 50⌋,
      b := ⌊150 - normalized * 120⌋ }
  else if colormap = "temperature" then
    if normalized < 0.33 then tempSeg1 normalized
    else if normalized < 0.67 then tempSeg2 normalized
    else tempSeg3 normalized
  else
    { r := ⌊68 + normalized * 187⌋, g := ⌊1 + normalized * 230⌋,
      b := ⌊84 - normalized * 30⌋ }

/-- Function `getColor` from `SpatialVisualization.tsx`. -/
def getColor (value mn mx : ℚ) (colormap : String) : RGB :=
  colorRamp colormap (normalizedOf value mn mx)

/-- All three channels are integers in `0..255`. -/
def inRange255 (c : RGB) : Prop :=
  0 ≤ c.r ∧ c.r ≤ 255 ∧ 0 ≤ c.g ∧ c.g ≤ 255 ∧ 0 ≤ c.b ∧ c.b ≤ 255

instance (c : RGB) : Decidable (inRange255 c) := by
  unfold inRange255; infer_instance

/-! ## Grid renderer (`SpatialVisualization.tsx` render effect) -/

/-- Type `SpatialGridData` as consumed by the renderer. -/
structure SpatialGridData where
  grid : List (List ℚ)
  min : ℚ
  max : ℚ
  nx : ℕ
  ny : ℕ
deriving DecidableEq, Repr

/-- Lookup `grid[j]?.[i] ?? min`: the cell value with the missing-cell fallback. -/
def cellValue (g : SpatialGridData) (j i : ℕ) : ℚ :=
  (((g.grid.get? j).bind (fun row => row.get? i)).getD g.min)

/-- The double rendering loop: for each `j < ny` and `i < nx` (row-major)
one pixel colored by `getColor(grid[j]?.[i] ?? min, min, max, colormap)`. -/
def renderGrid (g : SpatialGridData) (colormap : String) : List RGB :=
  (List.range g.ny).flatMap (fun j =>
    (List.range g.nx).map (fun i => getColor (cellValue g j i) g.min g.max colormap))

/-! ## Orchestration controller state (`useSimulationData.ts` + entry
points from `Dashboard.tsx`) -/

/-- The mutable session state owned by the `useSimulationData` hook.  The
`stepInFlight` field is the embedding's counter of gateway `POST
/simulation/step` requests that have been issued and not yet completed. -/
structure CtrlState where
  health : String
  chemistry : Option RawChem
  spatialGrid : Option SpatialGridData
  lastUpdated : ℕ
  isFetchingData : Bool
  isStepping : Bool
  isResetting : Bool
  isFetchingSpatial : Bool
  dataError : Option String
  spatialError : Option String
  targets : List String
  activeTargetId : Option String
  isFetchingTargets : Bool
  targetError : Option String
  lessons : List String
  isFetchingLessons : Bool
  isRunningLesson : Bool
  lessonError : Option String
  stepInFlight : ℕ
deriving DecidableEq, Repr

/-- The synchronous prefix of `stepSimulation`: `setIsStepping(true)` and
the `POST /simulation/step` request is fired (one more request in
flight).  No busy-flag check is performed before firing. -/
def stepSimulationStart (s : CtrlState) : CtrlState :=
  { s with isStepping := true, stepInFlight := s.stepInFlight + 1 }

/-- The failure continuation of `stepSimulation`: the request completes
with an error, the `catch` block only logs, and the `finally` block runs
`setIsStepping(false)`.  No error field is written. -/
def stepSimulationFail (s : CtrlState) : CtrlState :=
  { s with isStepping := false, stepInFlight := s.stepInFlight - 1 }

/-- The synchronous prefix of `resetSimulation`: `setIsResetting(true)`,
request fired. -/
def resetSimulationStart (s : CtrlState) : CtrlState :=
  { s with isResetting := true }

/-- The failure continuation of `resetSimulation`: `catch` only logs,
`finally` runs `setIsResetting(false)`. -/
def resetSimulationFail (s : CtrlState) : CtrlState :=
  { s with isResetting := false }

/-- Function `injectParameters` on gateway failure: the `catch` block only logs;
no busy flag exists for this action and no state field is written. -/
def injectParametersFail (s : CtrlState) : CtrlState := s

/-- Function `toggleMarineHeatwave` on gateway failure: the `catch` block only
logs; no state field is written. -/
def toggleMarineHeatwaveFail (s : CtrlState) : CtrlState := s

/-- Function `selectTarget` when the request throws: `setTargetError(null)` at
entry, then the `catch` block stores a human-readable message. -/
def selectTargetFail (s : CtrlState) : CtrlState :=
  { s with targetError := some "Failed to switch target." }

/-- The synchronous prefix of `runLesson`: `setIsRunningLesson(true)`,
`setLessonError(null)`. -/
def runLessonStart (s : CtrlState) : CtrlState :=
  { s with isRunningLesson := true, lessonError := none }

/-- The failure continuation of `runLesson`: the `catch` block stores a
message and the `finally` block clears the busy flag. -/
def runLessonFail (s : CtrlState) : CtrlState :=
  { s with isRunningLesson := false, lessonError := some "Failed to run lesson." }

/-- The synchronous prefix of `fetchSpatialGrid`:
`setIsFetchingSpatial(true)`, `setSpatialError(null)`, request fired. -/
def fetchSpatialGridStart (s : CtrlState) : CtrlState :=
  { s with isFetchingSpatial := true, spatialError := none }

/-- The step-class effect shared by the Space-key handler, the Advance
button body and the auto-play tick in `Dashboard.tsx`: call
`stepSimulation()` and, when the spatial view is shown,
`fetchSpatialGrid(parameter, 4)`. -/
def stepAndMaybeSpatial (showSpatialView : Bool) (s : CtrlState) : CtrlState :=
  let s1 := stepSimulationStart s
  if showSpatialView then fetchSpatialGridStart s1 else s1

/-- The Space-key branch of `handleKeyPress`: it invokes `stepSimulation`
unconditionally (no busy-flag check). -/
def pressSpace (showSpatialView : Bool) (s : CtrlState) : CtrlState :=
  stepAndMaybeSpatial showSpatialView s

/-- A click on the Advance button: the button carries
`disabled={isStepping || isFetchingData || isResetting}`, so a click is a
no-op while one of those flags is set; otherwise the handler body runs. -/
def clickAdvance (showSpatialView : Bool) (s : CtrlState) : CtrlState :=
  if s.isStepping || s.isFetchingData || s.isResetting then s
  else stepAndMaybeSpatial showSpatialView s

/-- The step-class portion of one auto-play tick: `stepSimulation()` and
the conditional spatial refresh (the compliance refresh in the same tick
touches only dashboard-local compliance state). -/
def autoPlayTickStep (showSpatialView : Bool) (s : CtrlState) : CtrlState :=
  stepAndMaybeSpatial showSpatialView s

/-- An idle controller state used by concrete counterexamples. -/
def idleCtrl : CtrlState :=
  { health := "", chemistry := none, spatialGrid := none, lastUpdated := 0,
    isFetchingData := false, isStepping := false, isResetting := false,
    isFetchingSpatial := false, dataError := none, spatialError := none,
    targets := [], activeTargetId := none, isFetchingTargets := false,
    targetError := none, lessons := [], isFetchingLessons := false,
    isRunningLesson := false, lessonError := none, stepInFlight := 0 }

/-! ## Concrete instances used by witnesses and counterexamples -/

/-- Snapshot A of the spec's §8 scenario: the other four fields are
arbitrary but equal in both snapshots. -/
def snapA : Chem :=
  { nutrient := 5, phytoplankton := 1, zooplankton := 0.5, detritus := 0.3,
    dissolved_oxygen := 6, ph := 8.1, bod := 2, temperature := 20 }

/-- Snapshot B of the spec's §8 scenario. -/
def snapB : Chem :=
  { snapA with dissolved_oxygen := 5.4, bod := 4 }

/-- A raw chemistry value whose `bod` key is missing/non-numeric. -/
def rawMissingBod : RawChem :=
  { nutrient := some 5, phytoplankton := some 1, zooplankton := some 0.5,
    detritus := some 0.3, dissolved_oxygen := some 6, ph := some 8.1,
    bod := none, temperature := some 20 }

/-- A previously captured slot-A snapshot. -/
def oldRunA : RunSnapshot :=
  { id := Slot.A, timestamp := 3, targetId := some "urban_lake",
    targetName := some "Urban Lake", health := "Healthy", chemistry := snapA }

/-- A dashboard state whose current chemistry is invalid (missing `bod`)
while slot A already holds a snapshot. -/
def invalidDash : DashState :=
  { chemistryRef := some rawMissingBod, activeTargetId := some "urban_lake",
    activeTargetName := some "Urban Lake", health := "Healthy",
    runA := some oldRunA, runB := none }

/-- A 2×2 spatial grid whose cell `(j = 1, i = 1)` is missing (the second
row is short). -/
def gridMissing : SpatialGridData :=
  { grid := [[1, 2], [3]], min := 1, max := 3, nx := 2, ny := 2 }

/-- The same grid with the missing cell filled in with `min`. -/
def gridFilled : SpatialGridData :=
  { grid := [[1, 2], [3, 1]], min := 1, max := 3, nx := 2, ny := 2 }

/-! ## Helper lemmas -/

theorem mem_dedupKeepFirst {x : String} :
    ∀ (seen l : List String), x ∈ l → x ∉ seen → x ∈ dedupKeepFirst seen l := by
  intro seen l
  induction l generalizing seen with
  | nil => intro h; cases h
  | cons a l ih =>
      intro hx hseen
      unfold dedupKeepFirst
      by_cases ha : a ∈ seen
      · rcases List.mem_cons.mp hx with rfl | hx'
        · exact absurd ha hseen
        · simpa [ha] using ih seen hx' hseen
      · rcases List.mem_cons.mp hx with rfl | hx'
        · simp [ha]
        · by_cases hxa : x = a
          · subst hxa; simp [ha]
          · have : x ∈ dedupKeepFirst (a :: seen) l :=
              ih (a :: seen) hx' (by simp [hxa, hseen])
            simp [ha, this]

theorem dedupKeepFirst_length_le :
    ∀ (seen l : List String), (dedupKeepFirst seen l).length ≤ l.length := by
  intro seen l
  induction l generalizing seen with
  | nil => simp [dedupKeepFirst]
  | cons a l ih =>
      unfold dedupKeepFirst
      by_cases ha : a ∈ seen
      · simpa [ha] using Nat.le_succ_of_le (ih seen)
      · simpa [ha] using ih (a :: seen)

theorem doBullets_length_le (d : Deltas) : (doBullets d).length ≤ 3 := by
  unfold doBullets
  split_ifs <;> simp

theorem nutrientBullets_length_le (d : Deltas) : (nutrientBullets d).length ≤ 2 := by
  unfold nutrientBullets
  split_ifs <;> simp

theorem bulletsRaw_length_le (d : Deltas) : (bulletsRaw d).length ≤ 6 := by
  have h1 := doBullets_length_le d
  have h2 := nutrientBullets_length_le d
  simp only [bulletsRaw, List.length_cons, List.length_append]
  omega

/-- The dedup-then-cap step never truncates: at most 6 bullets are ever
generated, so `.slice(0, 6)` is the identity here. -/
theorem bullets_take_eq (d : Deltas) :
    (dedupKeepFirst [] (bulletsRaw d)).take 6 = dedupKeepFirst [] (bulletsRaw d) :=
  List.take_of_length_le
    (le_trans (dedupKeepFirst_length_le [] (bulletsRaw d)) (bulletsRaw_length_le d))

theorem mem_bullets_of_mem_raw {x : String} (prev next : Chem) (label : String)
    (h : x ∈ bulletsRaw (deltasOf prev next)) :
    x ∈ (buildExplanation prev next label).bullets := by
  show x ∈ (dedupKeepFirst [] (bulletsRaw (deltasOf prev next))).take 6
  rw [bullets_take_eq]
  exact mem_dedupKeepFirst [] _ h (by simp)

/-- The generated bullet list always starts with the top-changes line. -/
theorem bullets_head (prev next : Chem) (label : String) :
    (buildExplanation prev next label).bullets.head? =
      some (topChangesLine (deltasOf prev next)) := by
  simp [buildExplanation, bulletsRaw, dedupKeepFirst]

/-- The BOD-rise note is emitted whenever DO fell below the `-0.01`
threshold while BOD rose above `0.01`. -/
theorem bodRiseNote_mem (prev next : Chem) (label : String)
    (h1 : (deltasOf prev next).dissolved_oxygen < -0.01)
    (h2 : (deltasOf prev next).bod > 0.01) :
    bodRiseNote ∈ (buildExplanation prev next label).bullets := by
  apply mem_bullets_of_mem_raw
  simp [bulletsRaw, doBullets, h1, h2]

/-- The ranking order stated by the spec for the top-changes bullet, on
index-tagged entries: strictly larger absolute delta first, ties broken by
the input position.  (`Modelled from the spec's ranking words`; compared
below with the source's comparator sort.) -/
def rankRel (a b : ℕ × String × ℚ) : Prop :=
  |b.2.2| < |a.2.2| ∨ (|a.2.2| = |b.2.2| ∧ a.1 ≤ b.1)

instance : DecidableRel rankRel := fun a b =>
  inferInstanceAs (Decidable (|b.2.2| < |a.2.2| ∨ (|a.2.2| = |b.2.2| ∧ a.1 ≤ b.1)))

instance : IsTotal (ℕ × String × ℚ) rankRel := by
  constructor
  intro a b
  rcases lt_trichotomy |a.2.2| |b.2.2| with h | h | h
  · right; left; exact h
  · rcases Nat.le_total a.1 b.1 with hle | hle
    · left; right; exact ⟨h, hle⟩
    · right; right; exact ⟨h.symm, hle⟩
  · left; left; exact h

instance : IsTrans (ℕ × String × ℚ) rankRel := by
  constructor
  intro a b c hab hbc
  rcases hab with h1 | ⟨h1, h1'⟩ <;> rcases hbc with h2 | ⟨h2, h2'⟩
  · left; exact lt_trans h2 h1
  · left; rw [← h2]; exact h1
  · left; rw [h1]; exact h2
  · right; exact ⟨h1.trans h2, le_trans h1' h2'⟩

/-- The delta entries tagged with their input position and ranked by the
spec's order. -/
def specRanked (prev next : Chem) : List (ℕ × String × ℚ) :=
  List.insertionSort rankRel (deltaEntries (deltasOf prev next)).enum

/-- On entries whose first index is strictly smaller, the spec's ranking
order coincides with the source's comparator order. -/
theorem rankRel_iff_jsBefore {x y : ℕ × String × ℚ} (h : x.1 < y.1) :
    rankRel x y ↔ jsBefore x.2 y.2 := by
  unfold rankRel jsBefore
  constructor
  · rintro (h1 | ⟨h1, _⟩)
    · exact le_of_lt h1
    · exact le_of_eq h1.symm
  · intro h1
    rcases eq_or_lt_of_le h1 with he | hl
    · right; exact ⟨he.symm, le_of_lt h⟩
    · left; exact hl

theorem enumFrom_pairwise_fst_lt (l : List (String × ℚ)) :
    ∀ n : ℕ, List.Pairwise (fun x y : ℕ × String × ℚ => x.1 < y.1) (l.enumFrom n) := by
  induction l with
  | nil => intro n; simp
  | cons a l ih =>
      intro n
      refine List.Pairwise.cons ?_ (ih (n + 1))
      intro y hy
      exact lt_of_lt_of_le (Nat.lt_succ_self n) (List.le_fst_of_mem_enumFrom hy)

theorem orderedInsert_map_snd (x : ℕ × String × ℚ) :
    ∀ (m : List (ℕ × String × ℚ)), (∀ y ∈ m, x.1 < y.1) →
      (List.orderedInsert rankRel x m).map Prod.snd =
        List.orderedInsert jsBefore x.2 (m.map Prod.snd) := by
  intro m
  induction m with
  | nil => intro _; rfl
  | cons y m ih =>
      intro h
      have hy : x.1 < y.1 := h y (List.mem_cons_self y m)
      by_cases hc : rankRel x y
      · have hcj : jsBefore x.2 y.2 := (rankRel_iff_jsBefore hy).mp hc
        simp [List.orderedInsert, hc, hcj]
      · have hc2 : ¬ jsBefore x.2 y.2 := fun hj => hc ((rankRel_iff_jsBefore hy).mpr hj)
        simp only [List.orderedInsert, if_neg hc, if_neg hc2, List.map_cons,
          List.cons.injEq, true_and]
        exact ih (fun z hz => h z (List.mem_cons_of_mem y hz))

theorem insertionSort_map_snd :
    ∀ (l : List (ℕ × String × ℚ)),
      List.Pairwise (fun x y : ℕ × String × ℚ => x.1 < y.1) l →
      (List.insertionSort rankRel l).map Prod.snd =
        List.insertionSort jsBefore (l.map Prod.snd) := by
  intro l
  induction l with
  | nil => intro _; rfl
  | cons x l ih =>
      intro h
      have hp := List.pairwise_cons.mp h
      have hmem : ∀ y ∈ List.insertionSort rankRel l, x.1 < y.1 := fun y hy =>
        hp.1 y ((List.perm_insertionSort rankRel l).mem_iff.mp hy)
      calc (List.insertionSort rankRel (x :: l)).map Prod.snd
          = (List.orderedInsert rankRel x (List.insertionSort rankRel l)).map Prod.snd := rfl
        _ = List.orderedInsert jsBefore x.2 ((List.insertionSort rankRel l).map Prod.snd) :=
            orderedInsert_map_snd x _ hmem
        _ = List.orderedInsert jsBefore x.2 (List.insertionSort jsBefore (l.map Prod.snd)) := by
            rw [ih hp.2]
        _ = List.insertionSort jsBefore ((x :: l).map Prod.snd) := rfl

/-- Dropping the index tags from the spec-side ranking recovers exactly
the source's comparator sort. -/
theorem specRanked_map_snd (prev next : Chem) :
    (specRanked prev next).map Prod.snd =
      sortByAbsDesc (deltaEntries (deltasOf prev next)) := by
  unfold specRanked sortByAbsDesc
  have hpw : List.Pairwise (fun x y : ℕ × String × ℚ => x.1 < y.1)
      (deltaEntries (deltasOf prev next)).enum := by
    simpa [List.enum] using
      enumFrom_pairwise_fst_lt (deltaEntries (deltasOf prev next)) 0
  rw [insertionSort_map_snd _ hpw, List.enum_map_snd]

theorem floor_nonneg_of {x : ℚ} (h : 0 ≤ x) : 0 ≤ ⌊x⌋ :=
  Int.le_floor.mpr (by exact_mod_cast h)

theorem floor_le_255 {x : ℚ} (h : x ≤ 255) : ⌊x⌋ ≤ 255 :=
  le_trans (Int.floor_le_floor h) (by norm_num)

/-- Every palette branch keeps all three channels in `0..255` for a
normalized value in `[0, 1]`. -/
theorem colorRamp_inRange (cm : String) (t : ℚ) (h0 : 0 ≤ t) (h1 : t ≤ 1) :
    inRange255 (colorRamp cm t) := by
  unfold colorRamp oxygenLow oxygenHigh tempSeg1 tempSeg2 tempSeg3 inRange255
  rw [show (0.5 : ℚ) = 1/2 by norm_num, show (0.33 : ℚ) = 33/100 by norm_num,
    show (0.34 : ℚ) = 17/50 by norm_num, show (0.67 : ℚ) = 67/100 by norm_num]
  split_ifs <;>
    refine ⟨?_, ?_, ?_, ?_, ?_, ?_⟩ <;>
      first
        | exact floor_nonneg_of (by linarith)
        | exact floor_le_255 (by linarith)
        | norm_num

/-- Indexing one block of a `flatMap` over a list of equal-length blocks. -/
theorem get?_flatMap_const_length {γ : Type} (g : ℕ → List γ) (m : ℕ)
    (hg : ∀ j, (g j).length = m) :
    ∀ (l : List ℕ) (k i : ℕ), i < m →
      (l.flatMap g).get? (k * m + i) = (l.get? k).bind (fun j => (g j).get? i) := by
  intro l
  induction l with
  | nil => intro k i _; simp
  | cons b l ih =>
      intro k i hi
      cases k with
      | zero =>
          simp only [List.flatMap_cons, Nat.zero_mul, Nat.zero_add, List.get?_cons_zero,
            Option.some_bind]
          exact List.get?_append (by rw [hg b]; exact hi)
      | succ k =>
          have harith : (k + 1) * m + i = (g b).length + (k * m + i) := by
            rw [hg b]; ring
          simp only [List.flatMap_cons, harith, List.get?_cons_succ]
          rw [List.get?_append_right (Nat.le_add_right _ _)]
          rw [Nat.add_sub_cancel_left]
          exact ih k i hi

/-! ## Theorems -/

/-- Claim C1, counterexample:  The claim says two rapid step calls from any
entry point yield exactly one in-flight gateway step request.  From the
idle state, a first Space press sets the `isStepping` busy flag, yet a
second Space press while the flag is set still fires: two step requests
are in flight, not one. -/
theorem c1_two_space_presses_two_requests :
    (pressSpace false idleCtrl).isStepping = true ∧
    (pressSpace false (pressSpace false idleCtrl)).stepInFlight = 2 :=
  ⟨rfl, rfl⟩

/-- Claim C1, amended:  Only the Advance button enforces the exclusion: it
is disabled while `isStepping`/`isFetchingData`/`isResetting`, so two
rapid clicks fire at most one new step request; `stepSimulation` itself
performs no busy-flag check, so two rapid keyboard or auto-play
invocations fire two concurrent step requests. -/
theorem c1_busy_flag_exclusion_per_entry_point (s : CtrlState) (sp : Bool) :
    (clickAdvance sp (clickAdvance sp s)).stepInFlight ≤ s.stepInFlight + 1 ∧
    (pressSpace sp (pressSpace sp s)).stepInFlight = s.stepInFlight + 2 ∧
    (autoPlayTickStep sp (autoPlayTickStep sp s)).stepInFlight = s.stepInFlight + 2 := by
  unfold clickAdvance pressSpace autoPlayTickStep stepAndMaybeSpatial
    stepSimulationStart fetchSpatialGridStart
  by_cases h : (s.isStepping || s.isFetchingData || s.isResetting) <;>
    cases sp <;> simp [h]

/-- Claim C2:  `buildExplanation` is deterministic: identical snapshot pairs
and identical action labels give identical explanations (bullets and
deltas included); the subtitle always equals the action label and the
deltas are exactly the per-field differences.  The embedding is a pure
function of its three arguments: no randomness or wall clock occurs in
the algorithm. -/
theorem c2_explain_deterministic (p₁ n₁ : Chem) (l₁ : String) (p₂ n₂ : Chem) (l₂ : String)
    (hp : p₁ = p₂) (hn : n₁ = n₂) (hl : l₁ = l₂) :
    buildExplanation p₁ n₁ l₁ = buildExplanation p₂ n₂ l₂ ∧
    (buildExplanation p₁ n₁ l₁).subtitle = l₁ ∧
    (buildExplanation p₁ n₁ l₁).deltas = deltasOf p₁ n₁ := by
  subst hp; subst hn; subst hl; exact ⟨rfl, rfl, rfl⟩

/-- Claim C2, witness: the determinism theorem applied at the concrete §8
scenario snapshots. -/
theorem c2_explain_deterministic_witness :
    buildExplanation snapA snapB "Inject pollutants: +2.0 mg/L" =
      buildExplanation snapA snapB "Inject pollutants: +2.0 mg/L" ∧
    (buildExplanation snapA snapB "Inject pollutants: +2.0 mg/L").subtitle =
      "Inject pollutants: +2.0 mg/L" ∧
    (buildExplanation snapA snapB "Inject pollutants: +2.0 mg/L").deltas =
      deltasOf snapA snapB :=
  c2_explain_deterministic snapA snapB _ snapA snapB _ rfl rfl rfl

/-- Claim C3:  The first bullet is always present and lists exactly the 3
fields with the largest absolute delta: it equals `Top changes: ` followed
by the first three entries of the spec's ranking — a permutation of the
position-tagged delta entries, sorted by absolute magnitude descending
with ties broken by input position — each formatted as
`<field> <signed delta>` and joined with commas.  Every entry outside the
top 3 has absolute delta at most that of every entry inside it. -/
theorem c3_first_bullet_top3 (prev next : Chem) (label : String) :
    (specRanked prev next).Perm (deltaEntries (deltasOf prev next)).enum ∧
    List.Sorted rankRel (specRanked prev next) ∧
    (∀ a ∈ (specRanked prev next).take 3, ∀ b ∈ (specRanked prev next).drop 3,
        |b.2.2| ≤ |a.2.2|) ∧
    (buildExplanation prev next label).bullets.head? =
      some ("Top changes: " ++
        String.intercalate ", "
          (((specRanked prev next).take 3).map (fun c => fmtEntry c.2)) ++ ".") := by
  refine ⟨List.perm_insertionSort rankRel _, List.sorted_insertionSort rankRel _, ?_, ?_⟩
  · intro a ha b hb
    have h := (List.sorted_insertionSort rankRel
      (deltaEntries (deltasOf prev next)).enum).rel_of_mem_take_of_mem_drop ha hb
    rcases h with h | ⟨h, _⟩
    · exact le_of_lt h
    · exact le_of_eq h.symm
  · rw [bullets_head]
    unfold topChangesLine
    have hs : (sortByAbsDesc (deltaEntries (deltasOf prev next))).take 3
        = ((specRanked prev next).take 3).map Prod.snd := by
      rw [← specRanked_map_snd, List.map_take]
    rw [hs, List.map_map]
    rfl

/-- Claim C3, witness: for the §8 scenario, `("bod", +2)` — tagged with
input position 1 — is among the top 3 and `("ph", 0)` — position 7 — is
outside them, and the domination inequality holds between them. -/
theorem c3_first_bullet_top3_witness :
    ((1, ("bod", (2:ℚ))) ∈ (specRanked snapA snapB).take 3) ∧
    ((7, ("ph", (0:ℚ))) ∈ (specRanked snapA snapB).drop 3) ∧
    |((7, ("ph", (0:ℚ))) : ℕ × String × ℚ).2.2| ≤
      |((1, ("bod", (2:ℚ))) : ℕ × String × ℚ).2.2| := by
  have hrank : specRanked snapA snapB =
      [(1, ("bod", 2)), (0, ("dissolved_oxygen", -0.6)), (2, ("temperature", 0)),
       (3, ("phytoplankton", 0)), (4, ("zooplankton", 0)), (5, ("detritus", 0)),
       (6, ("nutrient", 0)), (7, ("ph", 0))] := by
    norm_num [specRanked, deltaEntries, deltasOf, snapA, snapB, List.enum,
      List.enumFrom, List.insertionSort, List.orderedInsert, rankRel,
      abs_of_nonneg, abs_of_nonpos]
  have h1 : (1, ("bod", (2:ℚ))) ∈ (specRanked snapA snapB).take 3 := by
    rw [hrank]; simp
  have h2 : (7, ("ph", (0:ℚ))) ∈ (specRanked snapA snapB).drop 3 := by
    rw [hrank]; simp
  exact ⟨h1, h2,
    (c3_first_bullet_top3 snapA snapB "Inject pollutants: +2.0 mg/L").2.2.1 _ h1 _ h2⟩

/-- Claim C4:  Whenever the dissolved-oxygen delta is below `-0.01` and the
BOD delta is above `0.01`, the explanation includes the
oxygen-demand-from-BOD-rise note; and for the spec's §8 scenario
(`dissolved_oxygen` 6.0→5.4, `bod` 2.0→4.0, other fields unchanged) the
top bullet contains `bod +2.00` and `dissolved oxygen -0.60` and the
BOD-rise note is included. -/
theorem c4_bod_rise_rule :
    (∀ (prev next : Chem) (label : String),
        (deltasOf prev next).dissolved_oxygen < -0.01 →
        (deltasOf prev next).bod > 0.01 →
        bodRiseNote ∈ (buildExplanation prev next label).bullets) ∧
    ((buildExplanation snapA snapB "Inject pollutants: +2.0 mg/L").bullets.head? =
        some "Top changes: bod +2.00, dissolved oxygen -0.60, temperature 0.00." ∧
      (∃ u v, "Top changes: bod +2.00, dissolved oxygen -0.60, temperature 0.00."
          = u ++ "bod +2.00" ++ v) ∧
      (∃ u v, "Top changes: bod +2.00, dissolved oxygen -0.60, temperature 0.00."
          = u ++ "dissolved oxygen -0.60" ++ v) ∧
      bodRiseNote ∈
        (buildExplanation snapA snapB "Inject pollutants: +2.0 mg/L").bullets) := by
  refine ⟨fun prev next label h1 h2 => bodRiseNote_mem prev next label h1 h2,
    ?_, ⟨"Top changes: ", ", dissolved oxygen -0.60, temperature 0.00.", rfl⟩,
    ⟨"Top changes: bod +2.00, ", ", temperature 0.00.", rfl⟩,
    bodRiseNote_mem snapA snapB _ (by norm_num [deltasOf, snapA, snapB])
      (by norm_num [deltasOf, snapA, snapB])⟩
  rw [bullets_head]
  norm_num [topChangesLine, sortByAbsDesc, deltaEntries, deltasOf, snapA, snapB,
    List.insertionSort, List.orderedInsert, jsBefore, fmtEntry, formatDelta,
    toFixed2, abs_of_nonneg, abs_of_nonpos, String.intercalate]
  decide

/-- Claim C4, witness: the BOD-rise rule applied at the §8 scenario. -/
theorem c4_bod_rise_rule_witness :
    bodRiseNote ∈ (buildExplanation snapA snapB "Inject pollutants: +2.0 mg/L").bullets :=
  c4_bod_rise_rule.1 snapA snapB "Inject pollutants: +2.0 mg/L"
    (by norm_num [deltasOf, snapA, snapB]) (by norm_num [deltasOf, snapA, snapB])

/-- Claim C5, counterexample:  The claim says a failed gateway call sets
the corresponding error field to a human-readable message.  A failed
`stepSimulation` from the idle state clears the busy flag but leaves
every error field `none`: no error message is recorded anywhere. -/
theorem c5_step_failure_sets_no_error :
    (stepSimulationFail (stepSimulationStart idleCtrl)).isStepping = false ∧
    (stepSimulationFail (stepSimulationStart idleCtrl)).dataError = none ∧
    (stepSimulationFail (stepSimulationStart idleCtrl)).spatialError = none ∧
    (stepSimulationFail (stepSimulationStart idleCtrl)).targetError = none ∧
    (stepSimulationFail (stepSimulationStart idleCtrl)).lessonError = none :=
  ⟨rfl, rfl, rfl, rfl, rfl⟩

/-- Claim C5, amended:  On gateway failure each action clears its busy flag
(step, reset, lesson-run; inject and heatwave have none) and leaves all
other state unchanged, but only switch-target and lesson-run set their
error fields; step, reset, inject and toggle-heatwave set no error field
at all — their failures are only logged. -/
theorem c5_failure_transitions (s : CtrlState) :
    stepSimulationFail (stepSimulationStart s) = { s with isStepping := false } ∧
    resetSimulationFail (resetSimulationStart s) = { s with isResetting := false } ∧
    injectParametersFail s = s ∧
    toggleMarineHeatwaveFail s = s ∧
    selectTargetFail s = { s with targetError := some "Failed to switch target." } ∧
    runLessonFail (runLessonStart s) =
      { s with isRunningLesson := false,
               lessonError := some "Failed to run lesson." } := by
  refine ⟨?_, rfl, rfl, rfl, rfl, rfl⟩
  simp [stepSimulationStart, stepSimulationFail]

/-- Claim C6:  The renderer produces exactly `ny * nx` pixels; the pixel at
row `j`, column `i` is `colorFor(grid[j]?.[i] ?? min, min, max, palette)`;
and the output depends on the grid only through those defaulted cell
reads, so a grid with a missing cell renders identically to the same grid
with that cell equal to `min`. -/
theorem c6_grid_renderer (g : SpatialGridData) (colormap : String) :
    (renderGrid g colormap).length = g.ny * g.nx ∧
    (∀ j i : ℕ, j < g.ny → i < g.nx →
      (renderGrid g colormap).get? (j * g.nx + i) =
        some (getColor (cellValue g j i) g.min g.max colormap)) ∧
    (∀ g' : SpatialGridData, g.min = g'.min → g.max = g'.max → g.nx = g'.nx →
      g.ny = g'.ny →
      (∀ j i : ℕ, j < g.ny → i < g.nx → cellValue g j i = cellValue g' j i) →
      renderGrid g colormap = renderGrid g' colormap) := by
  refine ⟨?_, ?_, ?_⟩
  · simp only [renderGrid, List.length_flatMap]
    have : (List.map
        (fun j => (List.map (fun i => getColor (cellValue g j i) g.min g.max colormap)
          (List.range g.nx)).length)
        (List.range g.ny)) = List.replicate g.ny g.nx := by
      rw [List.eq_replicate_iff]
      constructor
      · simp
      · intro b hb
        rcases List.mem_map.mp hb with ⟨j, _, hj⟩
        simpa using hj.symm
    simp [Function.comp_def, this, List.sum_replicate, smul_eq_mul, Nat.mul_comm]
  · intro j i hj hi
    have hlen : ∀ jj : ℕ,
        ((List.range g.nx).map
          (fun i => getColor (cellValue g jj i) g.min g.max colormap)).length = g.nx := by
      intro jj; simp
    have h := get?_flatMap_const_length
      (fun jj => (List.range g.nx).map
        (fun i => getColor (cellValue g jj i) g.min g.max colormap))
      g.nx hlen (List.range g.ny) j i hi
    rw [renderGrid, h]
    simp [List.get?_range, hj, hi]
  · intro g' hmin hmax hnx hnyy hcell
    unfold renderGrid
    rw [← hnyy, ← hnx, ← hmin, ← hmax, List.flatMap_def, List.flatMap_def]
    apply congrArg List.flatten
    apply List.map_congr_left
    intro j hj
    apply List.map_congr_left
    intro i hi
    rw [hcell j i (List.mem_range.mp hj) (List.mem_range.mp hi)]

/-- Claim C6, witness: the renderer applied to a 2×2 grid whose cell
`(1, 1)` is missing renders identically to the same grid with that cell
equal to `min`, and produces `ny * nx` pixels. -/
theorem c6_grid_renderer_witness :
    (renderGrid gridMissing "oxygen").length = gridMissing.ny * gridMissing.nx ∧
    renderGrid gridMissing "oxygen" = renderGrid gridFilled "oxygen" := by
  refine ⟨(c6_grid_renderer gridMissing "oxygen").1,
    (c6_grid_renderer gridMissing "oxygen").2.2 gridFilled rfl rfl rfl rfl ?_⟩
  intro j i hj hi
  have h2 : gridMissing.ny = 2 := rfl
  have h2x : gridMissing.nx = 2 := rfl
  rw [h2] at hj
  rw [h2x] at hi
  interval_cases j <;> interval_cases i <;> rfl

/-- Claim C7:  For an input value inside the `[min, max]` bounds (the data
model's domain invariant), `getColor` normalizes
`t = (value - min)/(max - min)` — lying in `[0, 1]` — with `t = 0.5` for
a flat field (`min = max`), and every palette returns three integer
channels in `0..255` with no alpha channel. -/
theorem c7_colorFor_range (value mn mx : ℚ) (colormap : String)
    (h1 : mn ≤ value) (h2 : value ≤ mx) :
    (mn < mx → normalizedOf value mn mx = (value - mn) / (mx - mn)) ∧
    (mn = mx → normalizedOf value mn mx = 0.5) ∧
    0 ≤ normalizedOf value mn mx ∧ normalizedOf value mn mx ≤ 1 ∧
    inRange255 (getColor value mn mx colormap) := by
  have ht : 0 ≤ normalizedOf value mn mx ∧ normalizedOf value mn mx ≤ 1 := by
    unfold normalizedOf
    by_cases h : mx > mn
    · rw [if_pos h]
      constructor
      · exact div_nonneg (by linarith) (by linarith)
      · rw [div_le_one (by linarith)]
        linarith
    · rw [if_neg h]
      norm_num
  refine ⟨fun h => by unfold normalizedOf; rw [if_pos h],
    fun h => by unfold normalizedOf; rw [if_neg (by rw [h]; exact lt_irrefl mx)],
    ht.1, ht.2, colorRamp_inRange colormap _ ht.1 ht.2⟩

/-- Claim C7, witness: the bounds theorem applied at `value = 0.3`,
`min = 0`, `max = 1`, temperature palette. -/
theorem c7_colorFor_range_witness :
    0 ≤ normalizedOf 0.3 0 1 ∧ normalizedOf 0.3 0 1 ≤ 1 ∧
    inRange255 (getColor 0.3 0 1 "temperature") := by
  have h := c7_colorFor_range 0.3 0 1 "temperature" (by norm_num) (by norm_num)
  exact ⟨h.2.2.1, h.2.2.2.1, h.2.2.2.2⟩

/-- Claim C8:  `colorFor` is continuous at its piecewise-segment boundaries:
the oxygen palette's lower branch evaluated at `t = 0.5` equals the upper
branch there (which is what `getColor` uses at the boundary), and the
temperature palette's three segments agree pairwise at `0.33` and `0.67`.
The remaining palettes are single linear ramps with no internal
boundary. -/
theorem c8_colormap_boundary_continuity :
    oxygenLow 0.5 = oxygenHigh 0.5 ∧
    tempSeg1 0.33 = tempSeg2 0.33 ∧
    tempSeg2 0.67 = tempSeg3 0.67 ∧
    colorRamp "oxygen" 0.5 = oxygenHigh 0.5 ∧
    colorRamp "temperature" 0.33 = tempSeg2 0.33 ∧
    colorRamp "temperature" 0.67 = tempSeg3 0.67 := by
  norm_num [oxygenLow, oxygenHigh, tempSeg1, tempSeg2, tempSeg3, colorRamp,
    RGB.mk.injEq]
  decide

/-- Claim C9:  If the current chemistry is not a valid snapshot, capturing
either slot is a no-op: the whole dashboard state — both run slots
included — is returned unchanged, and nothing is defaulted to zero. -/
theorem c9_capture_invalid_noop (s : DashState) (id : Slot) (now : ℕ)
    (h : toChemistrySnapshot s.chemistryRef = none) :
    captureRunSnapshot id now s = s := by
  unfold captureRunSnapshot
  rw [h]

/-- Claim C9, witness: capturing slot A with a missing `bod` field leaves
the state — including the previously captured slot A — untouched. -/
theorem c9_capture_invalid_noop_witness :
    toChemistrySnapshot invalidDash.chemistryRef = none ∧
    captureRunSnapshot Slot.A 7 invalidDash = invalidDash :=
  ⟨rfl, c9_capture_invalid_noop invalidDash Slot.A 7 rfl⟩

/-- Claim C10:  Capturing one run-snapshot slot never modifies the other,
whether or not the current chemistry is valid. -/
theorem c10_capture_other_slot_unchanged (s : DashState) (now : ℕ) :
    (captureRunSnapshot Slot.A now s).runB = s.runB ∧
    (captureRunSnapshot Slot.B now s).runA = s.runA := by
  unfold captureRunSnapshot
  cases h : toChemistrySnapshot s.chemistryRef <;> simp

end HydroEco
